import Mathlib

/-!
Verification of the prompt-generator application.

This file gives a shallow embedding of the two source files of the
repository and proves the behavioural claims about them.

* `src/services/geminiService.ts`: the two service functions
  `generatePromptFromMedia` (describe path) and `generateImageFromPrompt`
  (synthesize path).  The network call itself is outside the embedding;
  what is embedded is (a) the pure prompt-composition performed before the
  call and (b) the pure response-unwrapping performed after it, over a
  faithful model of the SDK response shape (every field that the code
  accesses through optional chaining is an `Option`).

* `src/App.tsx`: the state handlers `processFile`, `handleGeneratePrompt`
  and `handleGenerateImage`.  React state is modelled as an explicit
  `AppState` record; each handler is a function from state to a new state
  paired with the list of outbound network effects it initiates.
-/

namespace PromptGenerator

/-- Inline binary data carried by a response part
(`part.inlineData` in the SDK): a MIME type that the remote service may
omit, and the base64 payload. -/
structure InlineData where
  mimeType : Option String
  data : String
deriving DecidableEq

/-- A content part of a synthesize-call response.  The code of
`generateImageFromPrompt` only ever reads `part.inlineData`; a part may
instead carry text, in which case `inlineData` is absent. -/
structure Part where
  inlineData : Option InlineData
  text : Option String
deriving DecidableEq

/-- `candidate.content` in the SDK response: an optional list of parts. -/
structure Content where
  parts : Option (List Part)
deriving DecidableEq

/-- A candidate of a synthesize-call response. -/
structure Candidate where
  content : Option Content
deriving DecidableEq

/-- A synthesize-call response: an optional list of candidates
(`response.candidates` in `geminiService.ts`). -/
structure SynthResponse where
  candidates : Option (List Candidate)
deriving DecidableEq

/-- A describe-call response: the SDK object exposes a `text` field that
may be absent (`response.text` in `generatePromptFromMedia`). -/
structure DescribeResponse where
  text : Option String
deriving DecidableEq

/-- JavaScript `x || d` on an optional string `x`: both `undefined` and
the empty string are falsy and fall through to the default.  Embeds
`part.inlineData.mimeType || 'image/png'` (geminiService.ts line 52) and
`response.text || "Failed to generate prompt."` (line 20). -/
def jsOrDefault (x : Option String) (d : String) : String :=
  match x with
  | none => d
  | some s => if s = "" then d else s

/-- `generatePromptFromMedia`, lines 15-21 of geminiService.ts: unwraps
the describe-call response as `response.text || "Failed to generate
prompt."`.  The function is total: it never raises on an absent or empty
`text` field. -/
def generatePromptFromMedia_result (r : DescribeResponse) : String :=
  jsOrDefault r.text ("Failed to generate prompt.")

/-- The prompt composition of `generateImageFromPrompt`, lines 29-35 of
geminiService.ts: start from the prompt; if `style !== "none"` append
`"\nStyle: " + style`; if the negative prompt is non-empty (truthy)
append `"\nNegative prompt: " + negativePrompt`. -/
def generateImageFromPrompt_finalPrompt (prompt style negativePrompt : String) : String :=
  let p1 := if style ≠ ("none") then prompt ++ "\nStyle: " ++ style else prompt
  let p2 := if negativePrompt ≠ ("") then p1 ++ "\nNegative prompt: " ++ negativePrompt else p1
  p2

/-- The data-URI built on line 52 of geminiService.ts:
`data:<mimeType or image/png>;base64,<data>`. -/
def dataURI (i : InlineData) : String :=
  "data:" ++ jsOrDefault i.mimeType ("image/png") ++ ";base64," ++ i.data

/-- The parts of one candidate: `c.content?.parts`, with a missing
`content` or missing `parts` giving the empty list. -/
def candidateParts (c : Candidate) : List Part :=
  match c.content with
  | some ct => ct.parts.getD []
  | none => []

/-- Line 49 of geminiService.ts:
`response.candidates?.[0]?.content?.parts || []`.  Only the first
candidate is consulted; any missing link of the optional chain yields the
empty list. -/
def responseParts (r : SynthResponse) : List Part :=
  match r.candidates with
  | some (c :: _) => candidateParts c
  | _ => []

/-- The scan of lines 50-54 of geminiService.ts: the first part of the
list that carries `inlineData`, if any. -/
def firstInlineData : List Part → Option InlineData
  | [] => none
  | p :: rest =>
    match p.inlineData with
    | some d => some d
    | none => firstInlineData rest

/-- The response-unwrapping of `generateImageFromPrompt`, lines 49-55:
returns the data-URI of the first part carrying inline data, or raises
(`Except.error`) `"No image generated"` when no part does. -/
def generateImageFromPrompt_extract (r : SynthResponse) : Except String String :=
  match firstInlineData (responseParts r) with
  | some d => Except.ok (dataURI d)
  | none => Except.error ("No image generated")

/-- JavaScript whitespace (the ASCII part of the WhiteSpace and
LineTerminator productions): space, tab, newline, carriage return,
vertical tab, form feed. -/
def jsIsWhitespace (c : Char) : Bool :=
  c = ' ' || c = '\t' || c = '\n' || c = '\r' || c = '\x0b' || c = '\x0c'

/-- JavaScript `String.prototype.trim`: strips leading and trailing
whitespace (used by App.tsx as `prompt.trim()`). -/
def jsTrim (s : String) : String :=
  String.mk (((s.data.dropWhile jsIsWhitespace).reverse.dropWhile jsIsWhitespace).reverse)

/-- JavaScript `String.prototype.startsWith` (used by App.tsx as
`selectedFile.type.startsWith(...)`). -/
def jsStartsWith (s pre : String) : Bool :=
  pre.data.isPrefixOf s.data

/-- The metadata of a user-selected `File` that App.tsx consults:
`file.type` (MIME type string) and `file.size` (bytes). -/
structure FileInfo where
  type : String
  size : Nat
deriving DecidableEq

/-- The tab selection of App.tsx. -/
inductive Tab where
  | source : Tab
  | generated : Tab
deriving DecidableEq

/-- The React state of `App` (App.tsx lines 16-31) that the verified
handlers touch; presentation-only state (drag flags, clipboard flag,
advanced-settings visibility) is omitted. -/
structure AppState where
  file : Option FileInfo
  previewUrl : Option String
  isGeneratingPrompt : Bool
  isGeneratingImage : Bool
  prompt : String
  generatedImage : Option String
  error : Option String
  activeTab : Tab
  aspectRatio : String
  style : String
  negativePrompt : String
deriving DecidableEq

/-- An outbound network call initiated by a handler. -/
inductive Effect where
  | describeCall (mimeType : String) : Effect
  | synthesizeCall (prompt aspectRatio style negativePrompt : String) : Effect
deriving DecidableEq

/-- The initial state of `App` (the `useState` defaults of
App.tsx lines 16-31). -/
def initialState : AppState where
  file := none
  previewUrl := none
  isGeneratingPrompt := false
  isGeneratingImage := false
  prompt := ""
  generatedImage := none
  error := none
  activeTab := Tab.source
  aspectRatio := "1:1"
  style := "none"
  negativePrompt := ""

/-- `processFile`, App.tsx lines 41-59: clear the error, reject a file
whose MIME type starts with neither `image/` nor `video/`, reject a file
larger than 15 * 1024 * 1024 bytes, otherwise accept the file and show
its preview (`url` stands for the result of `URL.createObjectURL`).  The
handler initiates no network call in any branch. -/
def processFile (s : AppState) (selectedFile : FileInfo) (url : String) :
    AppState × List Effect :=
  let s0 := { s with error := none }
  if !(jsStartsWith selectedFile.type ("image/")) && !(jsStartsWith selectedFile.type ("video/")) then
    ({ s0 with error := some ("Please upload an image or video file.") }, [])
  else if selectedFile.size > 15 * 1024 * 1024 then
    ({ s0 with error := some ("File size exceeds 15MB limit. Please choose a smaller file.") }, [])
  else
    ({ s0 with file := some selectedFile, activeTab := Tab.source, previewUrl := some url }, [])

/-- `handleGeneratePrompt`, App.tsx lines 79-95, up to the point where
the call is issued: a no-op without an accepted file; otherwise sets the
busy flag, clears the error, and starts the encode-and-describe call on
the accepted file's MIME type. -/
def handleGeneratePrompt (s : AppState) : AppState × List Effect :=
  match s.file with
  | none => (s, [])
  | some f =>
    ({ s with isGeneratingPrompt := true, error := none }, [Effect.describeCall f.type])

/-- `handleGenerateImage`, App.tsx lines 97-116, up to the point where
the call is issued: with a blank (trim-empty) prompt, set a validation
message and stop; otherwise set the busy flag, clear the error, and start
the synthesize call with the untrimmed prompt and the current settings. -/
def handleGenerateImage (s : AppState) : AppState × List Effect :=
  if jsTrim s.prompt = ("") then
    ({ s with error := some ("Please enter a prompt first.") }, [])
  else
    ({ s with isGeneratingImage := true, error := none },
      [Effect.synthesizeCall s.prompt s.aspectRatio s.style s.negativePrompt])

/-- The settling of the synthesize call in `handleGenerateImage`
(App.tsx lines 106-115): on success store the data-URI and switch to the
generated tab; on failure set the generic error message; in both cases
clear the busy flag (the `finally` block). -/
def handleGenerateImage_settle (s : AppState) (result : Except String String) : AppState :=
  match result with
  | Except.ok imageUrl =>
    { s with generatedImage := some imageUrl, activeTab := Tab.generated,
             isGeneratingImage := false }
  | Except.error _ =>
    { s with error := some ("Failed to generate image. Please try again."),
             isGeneratingImage := false }

/-- If no part of `l` carries inline data, the scan finds nothing. -/
theorem firstInlineData_eq_none {l : List Part} (h : ∀ p ∈ l, p.inlineData = none) :
    firstInlineData l = none := by
  induction l with
  | nil => rfl
  | cons p rest ih =>
    have hp := h p (List.mem_cons_self p rest)
    simp only [firstInlineData, hp]
    exact ih fun q hq => h q (List.mem_cons_of_mem p hq)

/-- The scan returns the inline data of the first part that carries it. -/
theorem firstInlineData_append {pre : List Part} (post : List Part) (p : Part) (d : InlineData)
    (hpre : ∀ q ∈ pre, q.inlineData = none) (hp : p.inlineData = some d) :
    firstInlineData (pre ++ p :: post) = some d := by
  induction pre with
  | nil => simp [firstInlineData, hp]
  | cons q rest ih =>
    have hq := hpre q (List.mem_cons_self q rest)
    simp only [List.cons_append, firstInlineData, hq]
    exact ih fun x hx => hpre x (List.mem_cons_of_mem q hx)

/-- Unwrapping a response whose scanned parts decompose as
`pre ++ p :: post` with `p` the first inline-data part returns the
data-URI of that part's inline data. -/
theorem extract_eq_ok (r : SynthResponse) (pre post : List Part) (p : Part) (d : InlineData)
    (hparts : responseParts r = pre ++ p :: post)
    (hpre : ∀ q ∈ pre, q.inlineData = none)
    (hp : p.inlineData = some d) :
    generateImageFromPrompt_extract r = Except.ok (dataURI d) := by
  unfold generateImageFromPrompt_extract
  rw [hparts, firstInlineData_append post p d hpre hp]

/-- C1: the text composed by `generateImageFromPrompt` before the remote
call equals the prompt unchanged when style is the sentinel and the
negative prompt is empty; with a non-sentinel style the line
`Style: <style>` is appended; with a non-empty negative prompt the line
`Negative prompt: <n>` is appended; both appends in that fixed order,
each preceded by a single newline. -/
theorem claim_C1 (p s n : String) :
    (generateImageFromPrompt_finalPrompt p ("none") ("") = p)
    ∧ (s ≠ ("none") →
        generateImageFromPrompt_finalPrompt p s ("") = p ++ "\nStyle: " ++ s)
    ∧ (n ≠ ("") →
        generateImageFromPrompt_finalPrompt p ("none") n = p ++ "\nNegative prompt: " ++ n)
    ∧ (s ≠ ("none") → n ≠ ("") →
        generateImageFromPrompt_finalPrompt p s n
          = p ++ "\nStyle: " ++ s ++ "\nNegative prompt: " ++ n) := by
  refine ⟨rfl, fun hs => ?_, fun hn => ?_, fun hs hn => ?_⟩
  · simp [generateImageFromPrompt_finalPrompt, hs]
  · simp [generateImageFromPrompt_finalPrompt, hn]
  · simp [generateImageFromPrompt_finalPrompt, hs, hn]

/-- C1 witness: the composition evaluated at a concrete prompt, style and
negative prompt. -/
theorem claim_C1_witness :
    generateImageFromPrompt_finalPrompt ("a cat") ("Cinematic") ("blurry")
      = ("a cat") ++ "\nStyle: " ++ ("Cinematic") ++ "\nNegative prompt: " ++ ("blurry") :=
  (claim_C1 ("a cat") ("Cinematic") ("blurry")).2.2.2 (by decide) (by decide)

/-- C2: when no content part of the response carries inline image data,
`generateImageFromPrompt` raises the explicit `"No image generated"`
failure and returns no data-URI string. -/
theorem claim_C2 (r : SynthResponse)
    (h : ∀ c ∈ r.candidates.getD [], ∀ p ∈ candidateParts c, p.inlineData = none) :
    generateImageFromPrompt_extract r = Except.error ("No image generated")
    ∧ ∀ u, generateImageFromPrompt_extract r ≠ Except.ok u := by
  obtain ⟨cands⟩ := r
  have hnone : firstInlineData (responseParts ⟨cands⟩) = none := by
    apply firstInlineData_eq_none
    intro p hp
    cases cands with
    | none => simp [responseParts] at hp
    | some cs =>
      cases cs with
      | nil => simp [responseParts] at hp
      | cons c rest =>
        exact h c (by simp) p (by simpa [responseParts] using hp)
  refine ⟨?_, ?_⟩
  · simp [generateImageFromPrompt_extract, hnone]
  · intro u hu
    simp [generateImageFromPrompt_extract, hnone] at hu

/-- C2 witness: a response whose single part carries only text. -/
theorem claim_C2_witness :
    generateImageFromPrompt_extract ⟨some [⟨some ⟨some [⟨none, some ("just text")⟩]⟩⟩]⟩
      = Except.error ("No image generated") :=
  (claim_C2 ⟨some [⟨some ⟨some [⟨none, some ("just text")⟩]⟩⟩]⟩ (by decide)).1

/-- C3: `generatePromptFromMedia` returns the literal fallback string on
an absent or empty `text` field, without raising, and returns the text
itself when it is non-empty. -/
theorem claim_C3 (t : String) (h : t ≠ ("")) :
    generatePromptFromMedia_result ⟨none⟩ = "Failed to generate prompt."
    ∧ generatePromptFromMedia_result ⟨some ("")⟩ = "Failed to generate prompt."
    ∧ generatePromptFromMedia_result ⟨some t⟩ = t := by
  refine ⟨rfl, rfl, ?_⟩
  simp [generatePromptFromMedia_result, jsOrDefault, h]

/-- C3 witness: the describe unwrapping evaluated at a concrete non-empty
text. -/
theorem claim_C3_witness :
    generatePromptFromMedia_result ⟨none⟩ = "Failed to generate prompt."
    ∧ generatePromptFromMedia_result ⟨some ("")⟩ = "Failed to generate prompt."
    ∧ generatePromptFromMedia_result ⟨some ("a dog")⟩ = "a dog" :=
  claim_C3 ("a dog") (by decide)

/-- C4: when the scanned parts contain an inline-data part,
`generateImageFromPrompt` returns the data-URI
`data:<mimeType>;base64,<data>` built from the first such part. -/
theorem claim_C4 (r : SynthResponse) (pre post : List Part) (p : Part) (d : InlineData)
    (hparts : responseParts r = pre ++ p :: post)
    (hpre : ∀ q ∈ pre, q.inlineData = none)
    (hp : p.inlineData = some d) :
    generateImageFromPrompt_extract r = Except.ok (dataURI d) :=
  extract_eq_ok r pre post p d hparts hpre hp

/-- C4 witness: a response with a text part followed by an inline-data
part; the data-URI of the inline part is returned. -/
theorem claim_C4_witness :
    generateImageFromPrompt_extract
        ⟨some [⟨some ⟨some [⟨none, some ("t")⟩,
          ⟨some ⟨some ("image/jpeg"), ("QUJD")⟩, none⟩]⟩⟩]⟩
      = Except.ok ("data:image/jpeg;base64,QUJD") :=
  (claim_C4
    ⟨some [⟨some ⟨some [⟨none, some ("t")⟩,
      ⟨some ⟨some ("image/jpeg"), ("QUJD")⟩, none⟩]⟩⟩]⟩
    [⟨none, some ("t")⟩] []
    ⟨some ⟨some ("image/jpeg"), ("QUJD")⟩, none⟩
    ⟨some ("image/jpeg"), ("QUJD")⟩
    (by decide) (by decide) (by decide)).trans (congrArg Except.ok (by decide))

/-- C5: when the first inline-data part omits its MIME type, the returned
string begins with exactly `data:image/png;base64,`. -/
theorem claim_C5 (r : SynthResponse) (pre post : List Part) (p : Part) (d : InlineData)
    (hparts : responseParts r = pre ++ p :: post)
    (hpre : ∀ q ∈ pre, q.inlineData = none)
    (hp : p.inlineData = some d)
    (hm : d.mimeType = none) :
    ∃ rest, generateImageFromPrompt_extract r
      = Except.ok (("data:image/png;base64,") ++ rest) := by
  refine ⟨d.data, ?_⟩
  rw [extract_eq_ok r pre post p d hparts hpre hp]
  obtain ⟨m, dat⟩ := d
  cases hm
  rfl

/-- C5 witness: a response whose single inline-data part has no MIME
type. -/
theorem claim_C5_witness :
    ∃ rest, generateImageFromPrompt_extract
        ⟨some [⟨some ⟨some [⟨some ⟨none, ("QUJD")⟩, none⟩]⟩⟩]⟩
      = Except.ok (("data:image/png;base64,") ++ rest) :=
  claim_C5 ⟨some [⟨some ⟨some [⟨some ⟨none, ("QUJD")⟩, none⟩]⟩⟩]⟩
    [] [] ⟨some ⟨none, ("QUJD")⟩, none⟩ ⟨none, ("QUJD")⟩
    (by decide) (by decide) (by decide) (by decide)

/-- C6: for a selected file whose MIME type starts with neither `image/`
nor `video/`, or whose size exceeds 15 * 1024 * 1024 bytes, `processFile`
produces a validation message, leaves the accepted-file state as it was
(in particular unset when it was unset), starts no network call, and the
encode-and-describe path stays uninvokable. -/
theorem claim_C6 (s : AppState) (f : FileInfo) (url : String)
    (h : (jsStartsWith f.type ("image/") = false ∧ jsStartsWith f.type ("video/") = false)
          ∨ 15 * 1024 * 1024 < f.size) :
    (processFile s f url).1.file = s.file
    ∧ ((processFile s f url).1.error = some ("Please upload an image or video file.")
        ∨ (processFile s f url).1.error
            = some ("File size exceeds 15MB limit. Please choose a smaller file."))
    ∧ (processFile s f url).2 = []
    ∧ (s.file = none → (handleGeneratePrompt (processFile s f url).1).2 = []) := by
  by_cases h1 :
      (!(jsStartsWith f.type ("image/")) && !(jsStartsWith f.type ("video/"))) = true
  · refine ⟨?_, Or.inl ?_, ?_, fun hf => ?_⟩
    · simp [processFile, h1]
    · simp [processFile, h1]
    · simp [processFile, h1]
    · simp [processFile, h1, handleGeneratePrompt, hf]
  · have hsize : 15 * 1024 * 1024 < f.size := by
      rcases h with ⟨ha, hb⟩ | hs
      · exact absurd (by simp [ha, hb]) h1
      · exact hs
    refine ⟨?_, Or.inr ?_, ?_, fun hf => ?_⟩
    · simp [processFile, h1, hsize]
    · simp [processFile, h1, hsize]
    · simp [processFile, h1, hsize]
    · simp [processFile, h1, hsize, handleGeneratePrompt, hf]

/-- C6 witness: a text file is rejected with the MIME-type message, the
accepted-file state stays unset, and no network call is started. -/
theorem claim_C6_witness :
    (processFile initialState ⟨("text/plain"), 10⟩ ("blob:u")).1.file = none
    ∧ ((processFile initialState ⟨("text/plain"), 10⟩ ("blob:u")).1.error
          = some ("Please upload an image or video file.")
        ∨ (processFile initialState ⟨("text/plain"), 10⟩ ("blob:u")).1.error
          = some ("File size exceeds 15MB limit. Please choose a smaller file."))
    ∧ (processFile initialState ⟨("text/plain"), 10⟩ ("blob:u")).2 = []
    ∧ (handleGeneratePrompt (processFile initialState ⟨("text/plain"), 10⟩ ("blob:u")).1).2
        = [] := by
  have h := claim_C6 initialState ⟨("text/plain"), 10⟩ ("blob:u")
    (Or.inl ⟨by decide, by decide⟩)
  exact ⟨h.1, h.2.1, h.2.2.1, h.2.2.2 rfl⟩

/-- C7: with an empty or whitespace-only prompt, `handleGenerateImage`
sets the validation message and starts no synthesize call. -/
theorem claim_C7 (s : AppState) (h : jsTrim s.prompt = ("")) :
    (handleGenerateImage s).1.error = some ("Please enter a prompt first.")
    ∧ (handleGenerateImage s).2 = [] := by
  refine ⟨?_, ?_⟩ <;> simp [handleGenerateImage, h]

/-- C7 witness: a whitespace-only prompt is rejected without any
synthesize call. -/
theorem claim_C7_witness :
    (handleGenerateImage { initialState with prompt := ("   ") }).1.error
        = some ("Please enter a prompt first.")
    ∧ (handleGenerateImage { initialState with prompt := ("   ") }).2 = [] :=
  claim_C7 { initialState with prompt := ("   ") } (by decide)

/-- C8: when the synthesize call fails, settling leaves the stored
generated image (and the prompt, tab and file) unchanged and only sets
the error message. -/
theorem claim_C8 (s : AppState) (e : String) :
    (handleGenerateImage_settle s (Except.error e)).generatedImage = s.generatedImage
    ∧ (handleGenerateImage_settle s (Except.error e)).error
        = some ("Failed to generate image. Please try again.")
    ∧ (handleGenerateImage_settle s (Except.error e)).prompt = s.prompt
    ∧ (handleGenerateImage_settle s (Except.error e)).activeTab = s.activeTab
    ∧ (handleGenerateImage_settle s (Except.error e)).file = s.file :=
  ⟨rfl, rfl, rfl, rfl, rfl⟩

/-- C10: with a prompt whose trimmed form is non-empty,
`handleGenerateImage` passes the prompt untrimmed to the synthesize call,
and the composed text of `generateImageFromPrompt` preserves it as a
prefix for every style and negative prompt. -/
theorem claim_C10 (s : AppState) (h : jsTrim s.prompt ≠ ("")) :
    (handleGenerateImage s).2
        = [Effect.synthesizeCall s.prompt s.aspectRatio s.style s.negativePrompt]
    ∧ ∀ st n, ∃ suffix,
        generateImageFromPrompt_finalPrompt s.prompt st n = s.prompt ++ suffix := by
  refine ⟨by simp [handleGenerateImage, h], fun st n => ?_⟩
  by_cases hs : st = ("none")
  · by_cases hn : n = ("")
    · exact ⟨(""), by simp [generateImageFromPrompt_finalPrompt, hs, hn]⟩
    · exact ⟨("\nNegative prompt: ") ++ n,
        by simp [generateImageFromPrompt_finalPrompt, hs, hn, String.append_assoc]⟩
  · by_cases hn : n = ("")
    · exact ⟨("\nStyle: ") ++ st,
        by simp [generateImageFromPrompt_finalPrompt, hs, hn, String.append_assoc]⟩
    · exact ⟨("\nStyle: ") ++ st ++ ("\nNegative prompt: ") ++ n,
        by simp [generateImageFromPrompt_finalPrompt, hs, hn, String.append_assoc]⟩

/-- C10 witness: a prompt with surrounding whitespace is sent exactly as
typed, and the composed text extends it on the right. -/
theorem claim_C10_witness :
    (handleGenerateImage { initialState with prompt := ("  a ") }).2
        = [Effect.synthesizeCall ("  a ") ("1:1") ("none") ("")]
    ∧ ∃ suffix, generateImageFromPrompt_finalPrompt ("  a ") ("Cinematic") ("blurry")
        = ("  a ") ++ suffix := by
  have h := claim_C10 { initialState with prompt := ("  a ") } (by decide)
  exact ⟨h.1, h.2 ("Cinematic") ("blurry")⟩

/-- C9: the unwrapping of `generateImageFromPrompt` inspects only the
first candidate — later candidates never influence the result — and a
response with no candidates, no first-candidate content, or no parts is
the no-image case, raising `"No image generated"` instead of crashing on
the missing field. -/
theorem claim_C9 :
    (∀ c rest, generateImageFromPrompt_extract ⟨some (c :: rest)⟩
        = generateImageFromPrompt_extract ⟨some [c]⟩)
    ∧ generateImageFromPrompt_extract ⟨none⟩ = Except.error ("No image generated")
    ∧ generateImageFromPrompt_extract ⟨some []⟩ = Except.error ("No image generated")
    ∧ (∀ rest, generateImageFromPrompt_extract ⟨some (⟨none⟩ :: rest)⟩
        = Except.error ("No image generated"))
    ∧ (∀ rest, generateImageFromPrompt_extract ⟨some (⟨some ⟨none⟩⟩ :: rest)⟩
        = Except.error ("No image generated")) :=
  ⟨fun _ _ => rfl, rfl, rfl, fun _ => rfl, fun _ => rfl⟩

end PromptGenerator
